import Mathlib

/-!
Verification of the RedIoT_21sep two-node duty-cycled sensor/actuator pair
(`Node1_21sep.ino`, sensor role; `Node2_21sep.ino`, actuator role).

Shallow embedding conventions:
* C `float`/`double` values are modelled by `FVal`: an explicit `nan`
  constructor plus exact rationals for finite values.  The only numeric
  operation the sketches perform on them is the strict comparison
  `temp > 29` (exact on rationals) and pass-through storage, so the
  rational model is faithful for every property proved here.
* The Arduino_JSON `JSONVar` object is modelled by an association list of
  key/`JValue` pairs; `JSON.stringify`/`JSON.parse` of the external library
  are assumed inverse, so the wire format is the association list itself.
  The library's conversion operators (`operator int` on a non-number gives
  0, `operator double` on a non-number gives 0, missing keys give the same
  defaults) are modelled by `jInt`, `jDouble`, `jString`.
* The global mutable state of each sketch (RTC-retained `hour`, `minut`,
  `sec`, `yettimed`; task-enabled flag; received `node`/`temp`/`hum`;
  `Color`) is threaded explicitly through state records, and effectful
  calls (broadcast, LED write, deep sleep) are recorded as `Action`s.
-/

namespace RedIoT

/-- Model of a C `float`/`double` value: not-a-number, or an exact rational. -/
inductive FVal where
  | nan
  | num (q : ℚ)
deriving DecidableEq, Repr

/-- A JSON value as assembled by the sketches: integer, floating-point
number, or string.  (The sketches store no other value kinds.) -/
inductive JValue where
  | JInt (n : ℤ)
  | JFloat (v : FVal)
  | JStr (s : String)
deriving DecidableEq, Repr

/-- A JSON object: association list of key/value pairs, in assembly order. -/
abbrev JsonObj := List (String × JValue)

/-- Arduino_JSON `operator int` applied to `object[key]`: a JSON integer
yields its value, a JSON double is truncated toward zero as in the C cast
(the `nan` and missing-key cases yield 0, matching the library's default
for non-numbers). -/
def jInt : Option JValue → ℤ
  | some (JValue.JInt n) => n
  | some (JValue.JFloat (FVal.num q)) => if q < 0 then q.ceil else q.floor
  | _ => 0

/-- Arduino_JSON `operator double` applied to `object[key]`: numbers pass
through; strings and missing keys yield 0. -/
def jDouble : Option JValue → FVal
  | some (JValue.JFloat v) => v
  | some (JValue.JInt n) => FVal.num n
  | _ => FVal.num 0

/-- Arduino_JSON `operator String` applied to `object[key]` for the cases
the sketches exercise: a JSON string yields its contents.  (Non-string
values go through the library's stringify fallback, which no decoded
message in this system hits; they are modelled by a fixed placeholder.) -/
def jString : Option JValue → String
  | some (JValue.JStr s) => s
  | _ => "null"

/-- The RTC-retained wall-clock fields `hour`, `minut`, `sec` (two-digit
strings, as produced by `strftime` into the 3-byte buffers). -/
structure Clock where
  hour : String
  minut : String
  sec : String
deriving DecidableEq, Repr

/-- Result of a successful `getLocalTime`: the broken-down time fields the
sketches format. -/
structure TimeInfo where
  hh : ℕ
  mm : ℕ
  ss : ℕ
deriving DecidableEq, Repr

/-- Two-digit zero-padded decimal rendering, as `strftime` "%H"/"%M"/"%S"
produce into a 3-byte buffer. -/
def fmt2 (n : ℕ) : String :=
  if n < 10 then "0" ++ Nat.repr n else Nat.repr n

/-- The `printLocalTime` routine, identical in both sketches: when
`getLocalTime` fails (`none`) it returns leaving the retained fields
untouched; on success it overwrites all three fields from the acquired
time. -/
def printLocalTime (t? : Option TimeInfo) (c : Clock) : Clock :=
  match t? with
  | none => c
  | some t => ⟨fmt2 t.hh, fmt2 t.mm, fmt2 t.ss⟩

/-- The persisted time as read back by the roles when stamping messages
(spec name `currentTime()`). -/
def currentTime (c : Clock) : String × String × String :=
  (c.hour, c.minut, c.sec)

/-- A sensor Reading as assembled by Node 1's `getReadings`. -/
structure Reading where
  node : ℤ
  temp : FVal
  hum : FVal
  hour : String
  minut : String
  sec : String
deriving DecidableEq, Repr

/-- An actuator Decision as assembled by Node 2's `getReadings`. -/
structure Decision where
  node : ℤ
  color : String
  hour : String
  minut : String
  sec : String
deriving DecidableEq, Repr

/-- Wire encoding of a Reading: the JSON object Node 1 builds, fields in
the order the code assigns them (`node`, `temp`, `hum`, `hour`, `min`,
`sec`; time fields are strings). -/
def encodeReading (r : Reading) : JsonObj :=
  [("node", JValue.JInt r.node), ("temp", JValue.JFloat r.temp),
   ("hum", JValue.JFloat r.hum), ("hour", JValue.JStr r.hour),
   ("min", JValue.JStr r.minut), ("sec", JValue.JStr r.sec)]

/-- Wire encoding of a Decision: the JSON object Node 2 builds (`node`,
`color`, `hour`, `min`, `sec`; time fields are strings). -/
def encodeDecision (d : Decision) : JsonObj :=
  [("node", JValue.JInt d.node), ("color", JValue.JStr d.color),
   ("hour", JValue.JStr d.hour), ("min", JValue.JStr d.minut),
   ("sec", JValue.JStr d.sec)]

/-- The fields Node 2's `receivedCallback` extracts from an incoming
message, with the C types it extracts them at: `int hour`, `int min`,
`int sec`, `int node` (well, `node` is the global `int`), `double temp`,
`double hum`. -/
structure DecodedReading where
  hour : ℤ
  min : ℤ
  sec : ℤ
  node : ℤ
  temp : FVal
  hum : FVal
deriving DecidableEq, Repr

/-- Node 2's decode step (`receivedCallback` lines extracting
`myObject[...]`), in source order. -/
def decodeReadingN2 (o : JsonObj) : DecodedReading :=
  { hour := jInt (List.lookup "hour" o)
    min := jInt (List.lookup "min" o)
    sec := jInt (List.lookup "sec" o)
    node := jInt (List.lookup "node" o)
    temp := jDouble (List.lookup "temp" o)
    hum := jDouble (List.lookup "hum" o) }

/-- The fields Node 1's `receivedCallback` extracts from an incoming
message: `int hour`, `int min`, `int sec`, `int node`, `String color`. -/
structure DecodedDecision where
  hour : ℤ
  min : ℤ
  sec : ℤ
  node : ℤ
  color : String
deriving DecidableEq, Repr

/-- Node 1's decode step (`receivedCallback` lines extracting
`myObject[...]`), in source order. -/
def decodeDecisionN1 (o : JsonObj) : DecodedDecision :=
  { hour := jInt (List.lookup "hour" o)
    min := jInt (List.lookup "min" o)
    sec := jInt (List.lookup "sec" o)
    node := jInt (List.lookup "node" o)
    color := jString (List.lookup "color" o) }

/-- Float strict comparison against a rational threshold: NaN compares
false, finite values compare exactly. -/
def fgt (v : FVal) (q : ℚ) : Bool :=
  match v with
  | FVal.nan => false
  | FVal.num x => decide (q < x)

/-- Node 2's `condition(float temp, int hum)`: `temp > 29` drives the LED
red and sets `Color = "Red"`, otherwise green and `Color = "Green"`.
Returns the `setColor(r, g, b)` argument triple and the `Color` string;
`hum` is accepted and ignored exactly as in the source. -/
def condition (temp : FVal) (hum : ℤ) : (ℤ × ℤ × ℤ) × String :=
  if fgt temp 29 then ((255, 0, 0), "Red") else ((0, 255, 0), "Green")

/-- Externally visible effects of a handler run: a mesh broadcast of a
JSON object, an LED write (`setColor` triple), disabling or enabling the
recurring `taskSendMessage`, the write `yettimed = 1` to the retained
synchronized flag, and the non-returning `esp_deep_sleep_start()`. -/
inductive Action where
  | broadcast (o : JsonObj)
  | setLed (r g b : ℤ)
  | taskDisable
  | taskEnable
  | flagSet
  | powerDown
deriving DecidableEq, Repr

/-- Node 1's run-time global state: the retained clock and `yettimed`
flag, whether `taskSendMessage` is enabled, and whether
`esp_deep_sleep_start()` has been reached (after which nothing further
executes until the next boot). -/
structure Node1State where
  clock : Clock
  yettimed : Bool
  taskEnabled : Bool
  asleep : Bool
deriving DecidableEq, Repr

/-- Node 1's `getReadings`: refresh the clock via `printLocalTime`, read
the DHT sensor (its outputs `temperature` and `humidity`, possibly NaN,
are inputs here), and assemble the Reading JSON with `nodeNumber = 1` and
the refreshed clock; returns the updated clock and the message. -/
def getReadingsN1 (t? : Option TimeInfo) (c : Clock)
    (temperature humidity : FVal) : Clock × JsonObj :=
  let c' := printLocalTime t? c
  (c', encodeReading
    { node := 1, temp := temperature, hum := humidity,
      hour := c'.hour, minut := c'.minut, sec := c'.sec })

/-- Node 1's `sendMessage`: build the Reading and broadcast it.  It does
not disable the task, set the flag, or sleep. -/
def sendMessageN1 (t? : Option TimeInfo) (temperature humidity : FVal)
    (s : Node1State) : Node1State × List Action :=
  let p := getReadingsN1 t? s.clock temperature humidity
  ({ s with clock := p.1 }, [Action.broadcast p.2])

/-- Node 1's `receivedCallback`: decode the incoming message into locals
(which shadow the retained fields and are only printed), then disable
`taskSendMessage`, set `yettimed = 1`, and enter deep sleep — for every
message, regardless of content. -/
def receivedCallbackN1 (o : JsonObj) (s : Node1State) :
    Node1State × List Action :=
  let _d := decodeDecisionN1 o
  ({ s with taskEnabled := false, yettimed := true, asleep := true },
   [Action.taskDisable, Action.flagSet, Action.powerDown])

/-- Events Node 1's control loop (`mesh.update()`) can service: arrival of
a peer message, or the scheduler firing `taskSendMessage` (carrying the
environment the task run observes: local-time result and DHT outputs). -/
inductive N1Event where
  | recv (src : ℕ) (msg : JsonObj)
  | fire (t? : Option TimeInfo) (temperature humidity : FVal)
deriving DecidableEq, Repr

/-- Whether an event is a message arrival. -/
def isRecvN1 : N1Event → Bool
  | N1Event.recv _ _ => true
  | N1Event.fire _ _ _ => false

/-- One servicing step of Node 1's loop: nothing runs after deep sleep;
a received message runs `receivedCallback`; the task fires only while
enabled. -/
def stepN1 (s : Node1State) (e : N1Event) : Node1State × List Action :=
  if s.asleep then (s, [])
  else
    match e with
    | N1Event.recv _ m => receivedCallbackN1 m s
    | N1Event.fire t? tv hv =>
        if s.taskEnabled then sendMessageN1 t? tv hv s else (s, [])

/-- Node 1's loop over a sequence of events, accumulating the emitted
actions in order. -/
def runN1 (s : Node1State) : List N1Event → Node1State × List Action
  | [] => (s, [])
  | e :: es =>
      let p := stepN1 s e
      let q := runN1 p.1 es
      (q.1, p.2 ++ q.2)

/-- Helper: a step on a non-receive event preserves the asleep flag and
never powers down. -/
theorem stepN1_nonrecv (s : Node1State) (e : N1Event)
    (h : isRecvN1 e = false) :
    (stepN1 s e).1.asleep = s.asleep ∧
      Action.powerDown ∉ (stepN1 s e).2 := by
  cases e with
  | recv src m => simp [isRecvN1] at h
  | fire t? tv hv =>
      by_cases ha : s.asleep
      · simp [stepN1, ha]
      · by_cases ht : s.taskEnabled
        · simp [stepN1, ha, ht, sendMessageN1]
        · simp [stepN1, ha, ht]

/-- Helper: a run containing no receive event preserves the asleep flag
and never powers down. -/
theorem runN1_nonrecv (s : Node1State) (es : List N1Event)
    (h : ∀ e ∈ es, isRecvN1 e = false) :
    (runN1 s es).1.asleep = s.asleep ∧
      Action.powerDown ∉ (runN1 s es).2 := by
  induction es generalizing s with
  | nil => simp [runN1]
  | cons e es ih =>
      have he : isRecvN1 e = false := h e (by simp)
      have hstep := stepN1_nonrecv s e he
      have hrest := ih (stepN1 s e).1 (fun x hx => h x (by simp [hx]))
      refine ⟨?_, ?_⟩
      · show (runN1 (stepN1 s e).1 es).1.asleep = s.asleep
        rw [hrest.1, hstep.1]
      · show Action.powerDown ∉ (stepN1 s e).2 ++ (runN1 (stepN1 s e).1 es).2
        simp only [List.mem_append]
        exact fun hc => hc.elim hstep.2 hrest.2

/-- Node 2's run-time global state: the retained clock and `yettimed`
flag, the task-enabled and asleep flags, the globals `node`, `temp`,
`hum` filled by the receive handler, and `Color`. -/
structure Node2State where
  clock : Clock
  yettimed : Bool
  taskEnabled : Bool
  asleep : Bool
  node : ℤ
  temp : FVal
  hum : FVal
  Color : String
deriving DecidableEq, Repr

/-- C cast of a received `double` to `int` (used where Node 2 passes the
global `hum` to `condition(float, int)`): truncation toward zero; the NaN
cast, undefined in C, is modelled as 0 and exercised by no theorem. -/
def fToInt : FVal → ℤ
  | FVal.nan => 0
  | FVal.num q => if q < 0 then q.ceil else q.floor

/-- Node 2's `getReadings`: refresh the clock via `printLocalTime` and
assemble the Decision JSON with `nodeNumber = 2`, the current `Color` and
the refreshed clock. -/
def getReadingsN2 (t? : Option TimeInfo) (c : Clock) (col : String) :
    Clock × JsonObj :=
  let c' := printLocalTime t? c
  (c', encodeDecision
    { node := 2, color := col,
      hour := c'.hour, minut := c'.minut, sec := c'.sec })

/-- Node 2's `sendMessage`: build the Decision, broadcast it, then disable
`taskSendMessage`, set `yettimed = 1`, and enter deep sleep — in that
source order. -/
def sendMessageN2 (t? : Option TimeInfo) (s : Node2State) :
    Node2State × List Action :=
  let p := getReadingsN2 t? s.clock s.Color
  ({ s with clock := p.1, taskEnabled := false, yettimed := true,
            asleep := true },
   [Action.broadcast p.2, Action.taskDisable, Action.flagSet,
    Action.powerDown])

/-- Node 2's `receivedCallback`: decode the incoming message (time fields
into shadowing locals that are only printed; `node`, `temp`, `hum` into
the globals), run `condition` on the received temperature and humidity
(which drives the LED and sets `Color`), then enable `taskSendMessage`.
No broadcast and no sleep happen here. -/
def receivedCallbackN2 (o : JsonObj) (s : Node2State) :
    Node2State × List Action :=
  let d := decodeReadingN2 o
  let s1 := { s with node := d.node, temp := d.temp, hum := d.hum }
  let r := condition s1.temp (fToInt s1.hum)
  ({ s1 with Color := r.2, taskEnabled := true },
   [Action.setLed r.1.1 r.1.2.1 r.1.2.2, Action.taskEnable])

/-- Events Node 2's control loop can service: a message arrival, or the
scheduler firing `taskSendMessage` (carrying the local-time result that
run observes). -/
inductive N2Event where
  | recv (src : ℕ) (msg : JsonObj)
  | fire (t? : Option TimeInfo)
deriving DecidableEq, Repr

/-- One servicing step of Node 2's loop: nothing runs after deep sleep;
a received message runs `receivedCallback`; the task fires only while
enabled (it starts disabled and is enabled by the receive handler). -/
def stepN2 (s : Node2State) (e : N2Event) : Node2State × List Action :=
  if s.asleep then (s, [])
  else
    match e with
    | N2Event.recv _ m => receivedCallbackN2 m s
    | N2Event.fire t? =>
        if s.taskEnabled then sendMessageN2 t? s else (s, [])

/-- Node 2's loop over a sequence of events, accumulating the emitted
actions in order. -/
def runN2 (s : Node2State) : List N2Event → Node2State × List Action
  | [] => (s, [])
  | e :: es =>
      let p := stepN2 s e
      let q := runN2 p.1 es
      (q.1, p.2 ++ q.2)

/-- Whether an action is a mesh broadcast. -/
def isBroadcast : Action → Bool
  | Action.broadcast _ => true
  | _ => false

/-- Helper: once Node 2 is asleep, no event produces any action or state
change. -/
theorem runN2_asleep (es : List N2Event) (s : Node2State)
    (h : s.asleep = true) : runN2 s es = (s, []) := by
  induction es generalizing s with
  | nil => rfl
  | cons e es ih =>
      show (let p := stepN2 s e
            let q := runN2 p.1 es
            ((q.1, p.2 ++ q.2) : Node2State × List Action)) = (s, [])
      have hs : stepN2 s e = (s, []) := by simp [stepN2, h]
      rw [hs]
      show ((runN2 s es).1, [] ++ (runN2 s es).2) = (s, [])
      rw [ih s h]
      rfl

/-- Helper: each single step of Node 2 either emits no broadcast, or ends
with the node asleep having emitted exactly one broadcast. -/
theorem stepN2_broadcast (s : Node2State) (e : N2Event) :
    ((stepN2 s e).2.countP isBroadcast = 0) ∨
      ((stepN2 s e).2.countP isBroadcast = 1 ∧
        (stepN2 s e).1.asleep = true) := by
  by_cases ha : s.asleep
  · left; simp [stepN2, ha]
  · cases e with
    | recv src m =>
        left
        simp [stepN2, ha, receivedCallbackN2, List.countP, List.countP.go,
          isBroadcast]
    | fire t? =>
        by_cases ht : s.taskEnabled
        · right
          constructor
          · simp [stepN2, ha, ht, sendMessageN2, List.countP, List.countP.go,
              isBroadcast]
          · simp [stepN2, ha, ht, sendMessageN2]
        · left; simp [stepN2, ha, ht]

/-- Helper: over any event sequence, Node 2 broadcasts at most once
between a wake and the (self-triggered) deep sleep. -/
theorem runN2_broadcast_le_one (es : List N2Event) (s : Node2State) :
    (runN2 s es).2.countP isBroadcast ≤ 1 := by
  induction es generalizing s with
  | nil => simp [runN2]
  | cons e es ih =>
      have hsplit :
          (runN2 s (e :: es)).2 = (stepN2 s e).2 ++ (runN2 (stepN2 s e).1 es).2 := by
        rfl
      rw [hsplit, List.countP_append]
      rcases stepN2_broadcast s e with h0 | ⟨h1, hs⟩
      · rw [h0]
        simpa using ih (stepN2 s e).1
      · rw [h1, runN2_asleep es _ hs]
        simp

/-- C1: the actuator's decision function yields Red iff the decoded
temperature strictly exceeds 29.0, and Green otherwise; in particular
29.0 resolves to Green (strict greater-than at the boundary), 28.999 to
Green and 29.001 to Red.  Stated for every humidity argument since
`condition` ignores it. -/
theorem C1_threshold : ∀ (t : ℚ) (hum : ℤ),
    ((condition (FVal.num t) hum).2 = "Red" ↔ 29 < t) ∧
    ((condition (FVal.num t) hum).2 = "Green" ↔ ¬ 29 < t) ∧
    (condition (FVal.num 29) hum).2 = "Green" ∧
    (condition (FVal.num (28999/1000)) hum).2 = "Green" ∧
    (condition (FVal.num (29001/1000)) hum).2 = "Red" := by
  intro t hum
  refine ⟨?_, ?_, ?_, ?_, ?_⟩
  · unfold condition fgt
    by_cases h : 29 < t
    · simp [h]
    · simp [h]
  · unfold condition fgt
    by_cases h : 29 < t
    · simp [h]
    · simp [h]
  · unfold condition fgt
    norm_num
  · unfold condition fgt
    norm_num
  · unfold condition fgt
    norm_num

/-- C2: receiving any peer message makes the sensor role disable the
recurring broadcast task, set the persisted synchronized flag, and enter
the non-returning power-down, regardless of message content; and
power-down is reached on no other path, so a run with no arriving message
never leaves the waiting state. -/
theorem C2_sensor_sleeps_only_on_receive :
    (∀ (o : JsonObj) (s : Node1State),
      (receivedCallbackN1 o s).1 =
        { s with taskEnabled := false, yettimed := true, asleep := true } ∧
      (receivedCallbackN1 o s).2 =
        [Action.taskDisable, Action.flagSet, Action.powerDown]) ∧
    (∀ (s : Node1State) (es : List N1Event),
      (∀ e ∈ es, isRecvN1 e = false) →
      (runN1 s es).1.asleep = s.asleep ∧
        Action.powerDown ∉ (runN1 s es).2) :=
  ⟨fun _ _ => ⟨rfl, rfl⟩, fun s es h => runN1_nonrecv s es h⟩

/-- Witness for C2 at a concrete awake state and a receive-free event
list: the role stays awake and never powers down. -/
theorem C2_sensor_sleeps_only_on_receive_witness :
    (runN1 ⟨⟨"14", "30", "00"⟩, false, true, false⟩
        [N1Event.fire none (FVal.num 25) (FVal.num 40)]).1.asleep = false ∧
    Action.powerDown ∉
      (runN1 ⟨⟨"14", "30", "00"⟩, false, true, false⟩
        [N1Event.fire none (FVal.num 25) (FVal.num 40)]).2 :=
  C2_sensor_sleeps_only_on_receive.2
    ⟨⟨"14", "30", "00"⟩, false, true, false⟩
    [N1Event.fire none (FVal.num 25) (FVal.num 40)] (by decide)

/-- C7: the actuator's receive handler drives the LED with the color
chosen by `condition` and re-enables the broadcast task; the subsequent
`sendMessage` broadcasts the Decision stamped with the current persisted
time and only afterwards sets the synchronized flag and powers down (the
action order is broadcast, task disable, flag set, power-down); and any
run emits at most one broadcast per wake cycle. -/
theorem C7_actuator_send_then_sleep :
    (∀ (o : JsonObj) (s : Node2State),
      (receivedCallbackN2 o s).2 =
        [Action.setLed
          (condition (decodeReadingN2 o).temp (fToInt (decodeReadingN2 o).hum)).1.1
          (condition (decodeReadingN2 o).temp (fToInt (decodeReadingN2 o).hum)).1.2.1
          (condition (decodeReadingN2 o).temp (fToInt (decodeReadingN2 o).hum)).1.2.2,
         Action.taskEnable] ∧
      (receivedCallbackN2 o s).1.taskEnabled = true ∧
      (receivedCallbackN2 o s).1.Color =
        (condition (decodeReadingN2 o).temp (fToInt (decodeReadingN2 o).hum)).2) ∧
    (∀ (t? : Option TimeInfo) (s : Node2State),
      sendMessageN2 t? s =
        ({ s with clock := printLocalTime t? s.clock, taskEnabled := false,
                  yettimed := true, asleep := true },
         [Action.broadcast (encodeDecision
            { node := 2, color := s.Color,
              hour := (printLocalTime t? s.clock).hour,
              minut := (printLocalTime t? s.clock).minut,
              sec := (printLocalTime t? s.clock).sec }),
          Action.taskDisable, Action.flagSet, Action.powerDown])) ∧
    (∀ (s : Node2State) (es : List N2Event),
      (runN2 s es).2.countP isBroadcast ≤ 1) :=
  ⟨fun _ _ => ⟨rfl, rfl, rfl⟩, fun _ _ => rfl,
   fun s es => runN2_broadcast_le_one es s⟩

/-- C8: the sensor role's send path is a single unconditional equation in
the sensor outputs — a NaN temperature or humidity is stored in the
Reading and broadcast exactly as a finite value would be, with no retry
and no branching on the values. -/
theorem C8_nan_encoded_as_is :
    ∀ (t? : Option TimeInfo) (tv hv : FVal) (s : Node1State),
    sendMessageN1 t? tv hv s =
      ({ s with clock := printLocalTime t? s.clock },
       [Action.broadcast (encodeReading
          { node := 1, temp := tv, hum := hv,
            hour := (printLocalTime t? s.clock).hour,
            minut := (printLocalTime t? s.clock).minut,
            sec := (printLocalTime t? s.clock).sec })]) :=
  fun _ _ _ _ => rfl

/-- C10: neither receive handler writes the retained clock fields: the
decoded time values land in shadowing locals, so the persisted
hour/minute/second are identical before and after the handler, for every
message and state. -/
theorem C10_receive_preserves_clock :
    ∀ (o : JsonObj) (s1 : Node1State) (s2 : Node2State),
    (receivedCallbackN1 o s1).1.clock = s1.clock ∧
    (receivedCallbackN2 o s2).1.clock = s2.clock :=
  fun _ _ _ => ⟨rfl, rfl⟩

/-- Modelled from the spec's words (refinement target for C3): decoding an
encoded Reading recovers the original field values — the numeric fields
are equal, and the decoded integer time fields still denote the original
two-digit time strings (re-rendering them two-digit zero-padded gives the
originals back). -/
def specReadingRoundTrip (r : Reading) : Prop :=
  (decodeReadingN2 (encodeReading r)).node = r.node ∧
  (decodeReadingN2 (encodeReading r)).temp = r.temp ∧
  (decodeReadingN2 (encodeReading r)).hum = r.hum ∧
  fmt2 (decodeReadingN2 (encodeReading r)).hour.toNat = r.hour ∧
  fmt2 (decodeReadingN2 (encodeReading r)).min.toNat = r.minut ∧
  fmt2 (decodeReadingN2 (encodeReading r)).sec.toNat = r.sec

/-- Counterexample for C3: the Reading broadcast in the spec's own
end-to-end scenario (node 1, 25.0 °C, 40 %, 14:30:00) does not round-trip:
the receiver extracts the string-valued time fields with the integer
conversion, which yields 0, not 14/30/0. -/
theorem C3_roundtrip_counterexample :
    ¬ specReadingRoundTrip
      { node := 1, temp := FVal.num 25, hum := FVal.num 40,
        hour := "14", minut := "30", sec := "00" } := by
  unfold specReadingRoundTrip
  decide

/-- C3 (amended): decoding an encoded Reading recovers the numeric payload
fields `node`, `temp`, `hum` exactly, and decoding an encoded Decision
recovers `node` and `color` exactly; the time fields, encoded as strings
but extracted as integers, always decode to 0 and are not recovered. -/
theorem C3_roundtrip_amended : ∀ (r : Reading) (d : Decision),
    (decodeReadingN2 (encodeReading r)).node = r.node ∧
    (decodeReadingN2 (encodeReading r)).temp = r.temp ∧
    (decodeReadingN2 (encodeReading r)).hum = r.hum ∧
    (decodeReadingN2 (encodeReading r)).hour = 0 ∧
    (decodeReadingN2 (encodeReading r)).min = 0 ∧
    (decodeReadingN2 (encodeReading r)).sec = 0 ∧
    (decodeDecisionN1 (encodeDecision d)).node = d.node ∧
    (decodeDecisionN1 (encodeDecision d)).color = d.color ∧
    (decodeDecisionN1 (encodeDecision d)).hour = 0 ∧
    (decodeDecisionN1 (encodeDecision d)).min = 0 ∧
    (decodeDecisionN1 (encodeDecision d)).sec = 0 :=
  fun _ _ => ⟨rfl, rfl, rfl, rfl, rfl, rfl, rfl, rfl, rfl, rfl, rfl⟩

/-- C4: decoding is total and permissive — any field whose key is absent
from the incoming object comes back as the type-appropriate zero, and the
handler proceeds with the partially-populated record. -/
theorem C4_decode_absent_defaults : ∀ o : JsonObj,
    (List.lookup "temp" o = none → (decodeReadingN2 o).temp = FVal.num 0) ∧
    (List.lookup "hum" o = none → (decodeReadingN2 o).hum = FVal.num 0) ∧
    (List.lookup "node" o = none → (decodeReadingN2 o).node = 0) ∧
    (List.lookup "hour" o = none → (decodeReadingN2 o).hour = 0) ∧
    (List.lookup "min" o = none → (decodeReadingN2 o).min = 0) ∧
    (List.lookup "sec" o = none → (decodeReadingN2 o).sec = 0) := by
  intro o
  refine ⟨fun h => ?_, fun h => ?_, fun h => ?_, fun h => ?_,
    fun h => ?_, fun h => ?_⟩
  all_goals simp [decodeReadingN2, jDouble, jInt, h]

/-- Witness for C4 at the empty object: every field decodes to its zero
default. -/
theorem C4_decode_absent_defaults_witness :
    (decodeReadingN2 []).temp = FVal.num 0 ∧
    (decodeReadingN2 []).hum = FVal.num 0 ∧
    (decodeReadingN2 []).node = 0 ∧
    (decodeReadingN2 []).hour = 0 ∧
    (decodeReadingN2 []).min = 0 ∧
    (decodeReadingN2 []).sec = 0 :=
  ⟨(C4_decode_absent_defaults []).1 rfl,
   (C4_decode_absent_defaults []).2.1 rfl,
   (C4_decode_absent_defaults []).2.2.1 rfl,
   (C4_decode_absent_defaults []).2.2.2.1 rfl,
   (C4_decode_absent_defaults []).2.2.2.2.1 rfl,
   (C4_decode_absent_defaults []).2.2.2.2.2 rfl⟩

/-- Boot-phase effects of `setup()`: the blocking WiFi connect loop
(`WiFi.begin` plus the busy-wait until connected), the explicit WiFi
disconnect/off, the SNTP configuration call (`configTime`), the
`printLocalTime` read of local time into the retained fields, arming the
wake timer with a microsecond duration, mesh initialisation (including
callback registration), adding `taskSendMessage` to the scheduler, and
enabling it. -/
inductive BootAction where
  | wifiConnectBlocking
  | wifiDisconnect
  | configTimeCall
  | readLocalTime
  | armTimer (us : ℚ)
  | meshInit
  | taskAdd
  | taskStart
deriving DecidableEq, Repr

/-- Node 1's `TIME_TO_SLEEP` constant (seconds). -/
def TIME_TO_SLEEP_N1 : ℚ := 5

/-- Node 2's `TIME_TO_SLEEP` constant (seconds). -/
def TIME_TO_SLEEP_N2 : ℚ := 51 / 10

/-- The shared `uS_TO_S_FACTOR` constant (microseconds per second). -/
def uS_TO_S_FACTOR : ℚ := 1000000

/-- Node 1's `setup()`: when `yettimed == 0`, connect to WiFi (blocking),
configure SNTP, read local time, and turn WiFi off; otherwise only
configure SNTP and read local time.  Both branches then arm the wake
timer for `TIME_TO_SLEEP * uS_TO_S_FACTOR`, initialise the mesh, add
`taskSendMessage` and enable it.  Returns the retained clock after the
boot phase together with the ordered effects. -/
def setupN1 (yettimed : Bool) (t? : Option TimeInfo) (c : Clock) :
    Clock × List BootAction :=
  if yettimed = false then
    (printLocalTime t? c,
     [BootAction.wifiConnectBlocking, BootAction.configTimeCall,
      BootAction.readLocalTime, BootAction.wifiDisconnect,
      BootAction.armTimer (TIME_TO_SLEEP_N1 * uS_TO_S_FACTOR),
      BootAction.meshInit, BootAction.taskAdd, BootAction.taskStart])
  else
    (printLocalTime t? c,
     [BootAction.configTimeCall, BootAction.readLocalTime,
      BootAction.armTimer (TIME_TO_SLEEP_N1 * uS_TO_S_FACTOR),
      BootAction.meshInit, BootAction.taskAdd, BootAction.taskStart])

/-- Node 2's `setup()`: same branching as Node 1, but the wake timer is
armed for `5.1 * uS_TO_S_FACTOR` and `taskSendMessage` is only added to
the scheduler, never enabled here (it starts disabled, per the Listening
state). -/
def setupN2 (yettimed : Bool) (t? : Option TimeInfo) (c : Clock) :
    Clock × List BootAction :=
  if yettimed = false then
    (printLocalTime t? c,
     [BootAction.wifiConnectBlocking, BootAction.configTimeCall,
      BootAction.readLocalTime, BootAction.wifiDisconnect,
      BootAction.armTimer (TIME_TO_SLEEP_N2 * uS_TO_S_FACTOR),
      BootAction.meshInit, BootAction.taskAdd])
  else
    (printLocalTime t? c,
     [BootAction.configTimeCall, BootAction.readLocalTime,
      BootAction.armTimer (TIME_TO_SLEEP_N2 * uS_TO_S_FACTOR),
      BootAction.meshInit, BootAction.taskAdd])

/-- C5: on every boot, in both roles, the blocking network connection
phase runs exactly when the persisted synchronized flag is false; when
the flag is true the boot phase re-reads the time fields with no network
connection (and no disconnect, since none was opened). -/
theorem C5_sync_or_reuse :
    ∀ (y : Bool) (t? : Option TimeInfo) (c : Clock),
    (BootAction.wifiConnectBlocking ∈ (setupN1 y t? c).2 ↔ y = false) ∧
    (BootAction.wifiConnectBlocking ∈ (setupN2 y t? c).2 ↔ y = false) ∧
    (y = true →
      BootAction.readLocalTime ∈ (setupN1 y t? c).2 ∧
      BootAction.wifiConnectBlocking ∉ (setupN1 y t? c).2 ∧
      BootAction.wifiDisconnect ∉ (setupN1 y t? c).2 ∧
      BootAction.readLocalTime ∈ (setupN2 y t? c).2 ∧
      BootAction.wifiConnectBlocking ∉ (setupN2 y t? c).2 ∧
      BootAction.wifiDisconnect ∉ (setupN2 y t? c).2) := by
  intro y t? c
  cases y <;> simp [setupN1, setupN2]

/-- Witness for C5 with the flag set (the reuse path) at a concrete
clock: local time is re-read and no network connection happens. -/
theorem C5_sync_or_reuse_witness :
    BootAction.readLocalTime ∈ (setupN1 true none ⟨"09", "15", "42"⟩).2 ∧
    BootAction.wifiConnectBlocking ∉ (setupN1 true none ⟨"09", "15", "42"⟩).2 ∧
    BootAction.readLocalTime ∈ (setupN2 true none ⟨"09", "15", "42"⟩).2 ∧
    BootAction.wifiConnectBlocking ∉ (setupN2 true none ⟨"09", "15", "42"⟩).2 := by
  have h := (C5_sync_or_reuse true none ⟨"09", "15", "42"⟩).2.2 rfl
  exact ⟨h.1, h.2.1, h.2.2.2.1, h.2.2.2.2.1⟩

/-- C6: when local time acquisition fails, `printLocalTime` leaves all
three retained time fields unchanged, so `currentTime` afterwards still
returns the last-known value; on success it sets all three fields from
the acquired time. -/
theorem C6_failed_sync_keeps_time :
    (∀ c : Clock, printLocalTime none c = c ∧
      currentTime (printLocalTime none c) = currentTime c) ∧
    (∀ (t : TimeInfo) (c : Clock),
      printLocalTime (some t) c =
        { hour := fmt2 t.hh, minut := fmt2 t.mm, sec := fmt2 t.ss }) :=
  ⟨fun _ => ⟨rfl, rfl⟩, fun _ _ => rfl⟩

/-- C9: the wake timer is armed with the per-role literal durations —
5 seconds for the sensor role and 5.1 seconds for the actuator role, i.e.
5000000 and 5100000 microseconds — on every boot path, and the actuator's
armed duration is strictly greater than the sensor's. -/
theorem C9_sleep_durations :
    TIME_TO_SLEEP_N1 = 5 ∧ TIME_TO_SLEEP_N2 = 51 / 10 ∧
    TIME_TO_SLEEP_N1 * uS_TO_S_FACTOR = 5000000 ∧
    TIME_TO_SLEEP_N2 * uS_TO_S_FACTOR = 5100000 ∧
    TIME_TO_SLEEP_N1 * uS_TO_S_FACTOR < TIME_TO_SLEEP_N2 * uS_TO_S_FACTOR ∧
    (∀ (y : Bool) (t? : Option TimeInfo) (c : Clock),
      BootAction.armTimer (TIME_TO_SLEEP_N1 * uS_TO_S_FACTOR) ∈
          (setupN1 y t? c).2 ∧
        BootAction.armTimer (TIME_TO_SLEEP_N2 * uS_TO_S_FACTOR) ∈
          (setupN2 y t? c).2) := by
  refine ⟨rfl, rfl, by norm_num [TIME_TO_SLEEP_N1, uS_TO_S_FACTOR],
    by norm_num [TIME_TO_SLEEP_N2, uS_TO_S_FACTOR],
    by norm_num [TIME_TO_SLEEP_N1, TIME_TO_SLEEP_N2, uS_TO_S_FACTOR],
    ?_⟩
  intro y t? c
  cases y <;> simp [setupN1, setupN2]

end RedIoT
